import Mathlib

/-!
Verification of the anicreator story-maker orchestration layer.

The definitions below are shallow embeddings of the TypeScript source:
- the client poller `pollJobUntilComplete` from the API client
  (`src/unnamed/part_013`, identical copy in `part_012`);
- the client state reconciler pieces from the scene-generation component
  (`src/unnamed/part_009`) and the story context provider
  (`src/unnamed/part_005`);
- the final-video page auto-generation effect
  (`src/story-maker/app/create/final/page.tsx`).

JavaScript arrays of URL strings are modelled as `List String`; a cell that
JS would hold as `undefined`/`null` is modelled as the empty string when the
source itself collapses it there via `|| ''`, and as `Option` otherwise.
-/

namespace AniCreator

/-- Job states from the `JobStatusResponse` TypeScript interface.  The backend
reports one of five string states; `OTHER` stands for any unrecognized string,
which the poller handles in its fallback branch. -/
inductive JobState where
  | PENDING
  | STARTED
  | PROGRESS
  | SUCCESS
  | FAILURE
  | OTHER (s : String)
deriving DecidableEq

/-- The optional `progress` sub-object of a job status payload. -/
structure JobProgress where
  current : Nat
  total : Nat
deriving DecidableEq

/-- One polled job status payload (`JobStatusResponse`).  The
`partial_results` and `result` payloads are opaque to the poller, which only
passes them through; they are modelled by the URL-array shape the pipeline
stages use. -/
structure JobRecord where
  state : JobState
  status : String
  progress : Option JobProgress
  partial_results : Option (List String)
  result : Option String
  error : Option String
deriving DecidableEq

/-- The argument object passed to the `onProgress` callback:
`{current, total, status, partialResults}`. -/
structure ProgressEvent where
  current : Nat
  total : Nat
  status : String
  partialResults : Option (List String)
deriving DecidableEq

/-- Terminal outcome of a poller run.  `stillPolling` means the modelled
sequence of poll responses ran out before a terminal state was seen (the real
poller would keep scheduling ticks forever). -/
inductive PollOutcome where
  | stillPolling
  | resolved (result : Option String)
  | rejected (msg : String)
deriving DecidableEq

/-- Observable behaviour of one poller run: the progress-callback invocations
in order, the settled outcome, and how many status requests were issued. -/
structure PollRun where
  events : List ProgressEvent
  outcome : PollOutcome
  polls : Nat
deriving DecidableEq

/-- Embeds `new Error(status.error || 'Job failed')`: the JS `||` falls through to
the default on `undefined` and on the empty string (both falsy). -/
def failureMessage (e : Option String) : String :=
  match e with
  | some s => if s = "" then "Job failed" else s
  | none => "Job failed"

/-- The callback invocation produced by one `STARTED`/`PROGRESS` poll:
the source guards with `if (onProgress && status.progress)`, so the callback
fires exactly when the `progress` field is present (we model a caller that
always supplies `onProgress`). -/
def progressEvent (r : JobRecord) : List ProgressEvent :=
  match r.progress with
  | some p => [⟨p.current, p.total, r.status, r.partial_results⟩]
  | none => []

/-- Shallow embedding of `pollJobUntilComplete` (src/unnamed/part_013:166-206).
The input list gives, in order, the outcome of each `getJobStatus` call the
poller would make: `Except.error e` is a fetch that throws, `Except.ok r` a
returned status payload.  The function consumes exactly one list entry per
status request issued, mirroring the source's recursive `poll` closure:
- a thrown fetch rejects immediately (`catch { reject(error) }`), no retry;
- `PROGRESS`/`STARTED` fires the callback when `progress` is present, then
  schedules the next tick (`setTimeout(poll, pollInterval)`);
- `SUCCESS` resolves with the `result` field and stops;
- `FAILURE` rejects with `error || 'Job failed'` and stops;
- `PENDING` or any other state schedules the next tick with no callback. -/
def pollJobUntilComplete : List (Except String JobRecord) → PollRun
  | [] => ⟨[], PollOutcome.stillPolling, 0⟩
  | Except.error e :: _ => ⟨[], PollOutcome.rejected e, 1⟩
  | Except.ok r :: rest =>
    match r.state with
    | JobState.PROGRESS =>
        let k := pollJobUntilComplete rest
        ⟨progressEvent r ++ k.events, k.outcome, k.polls + 1⟩
    | JobState.STARTED =>
        let k := pollJobUntilComplete rest
        ⟨progressEvent r ++ k.events, k.outcome, k.polls + 1⟩
    | JobState.SUCCESS => ⟨[], PollOutcome.resolved r.result, 1⟩
    | JobState.FAILURE => ⟨[], PollOutcome.rejected (failureMessage r.error), 1⟩
    | _ =>
        let k := pollJobUntilComplete rest
        ⟨k.events, k.outcome, k.polls + 1⟩

/-- A poll response on which the source's loop keeps going: a returned payload
whose state is neither `SUCCESS` nor `FAILURE` (the thrown-fetch case stops the
loop, so it does not continue either). -/
def pollContinues : Except String JobRecord → Bool
  | Except.error _ => false
  | Except.ok r =>
    match r.state with
    | JobState.SUCCESS => false
    | JobState.FAILURE => false
    | _ => true

/-- The poll sequence used to demonstrate the absence of cancellation: two
`PROGRESS` payloads, then `SUCCESS`.  A caller abandoning the poller after the
first callback cannot influence the run, because `pollJobUntilComplete`
exposes no cancellation input. -/
def abandonedPollTrace : List (Except String JobRecord) :=
  [Except.ok ⟨JobState.PROGRESS, "1/2 scenes", some ⟨1, 2⟩, some ["a.png"], none, none⟩,
   Except.ok ⟨JobState.PROGRESS, "2/2 scenes", some ⟨2, 2⟩, some ["a.png", "b.png"], none, none⟩,
   Except.ok ⟨JobState.SUCCESS, "done", none, none, some "out.mp4", none⟩]

/-- A JS array write `const u = [...xs]; u[i] = v; return u`.  When `i` is in
range this is `List.set`; a write past the end extends the array, and the gap
cells JS leaves `undefined` are rendered as the empty string, the value the
pipeline uses everywhere for an absent URL. -/
def jsArrayWrite (xs : List String) (i : Nat) (v : String) : List String :=
  if i < xs.length then xs.set i v
  else xs ++ List.replicate (i - xs.length) "" ++ [v]

/-- The loop body of the partial-results handler in `generateAllImages`
(src/unnamed/part_009:1234-1240):
`partialImages.forEach((imageUrl, idx) => { if (imageUrl) updated[idx] = imageUrl; })`.
`k` is the index the forEach counter has reached. -/
def mergeLoop (acc : List String) (k : Nat) : List String → List String
  | [] => acc
  | v :: vs => mergeLoop (if v = "" then acc else jsArrayWrite acc k v) (k + 1) vs

/-- Merging a partial-results payload into the held URL array: copy the held
array, then overwrite exactly the indices whose payload entry is a non-empty
(truthy) string. -/
def mergePartialImages (sceneImages partialImages : List String) : List String :=
  mergeLoop sceneImages 0 partialImages

/-- Embeds `Array(n).fill('').map((_, idx) => xs[idx] || '')` — the array-length fix
applied on mount and after script generation (src/unnamed/part_009:849-858 and
911-924): build an array of exactly `n` cells, keeping the held value at each
index that exists and filling the rest with the empty string. -/
def alignToLength (n : Nat) (xs : List String) : List String :=
  (List.range n).map (fun idx => xs.getD idx "")

/-- The mount-time reconciliation (src/unnamed/part_009:848-858): each sibling
array is rebuilt to `scenes.length` cells only when its length differs. -/
def reconcileOnMount (scenesLen : Nat) (videos sceneImages : List String) :
    List String × List String :=
  (if videos.length ≠ scenesLen then alignToLength scenesLen videos else videos,
   if sceneImages.length ≠ scenesLen then alignToLength scenesLen sceneImages
   else sceneImages)

/-- The user-controlled upstream inputs serialized into the story signature
(src/unnamed/part_009:757-769).  The source stores
`JSON.stringify({characterName, ..., sceneCount})` and compares signatures by
string equality; since that serialization of a fixed-shape record is injective
in the field values, the signature is modelled by the input record itself. -/
structure SignatureInputs where
  characterName : String
  characterType : String
  personality : String
  characterDescription : String
  characterPrompt : String
  characterImageUrl : String
  selectedStyle : String
  selectedThemes : List String
  customTheme : String
  sceneCount : Nat
deriving DecidableEq

/-- One scene record of the story script (`SceneLine` in the API client).
`narration_duration` is a number of seconds in the source; the claims only
pass it through or default it, so it is modelled as `Nat`.  `phonemes` is an
opaque payload. -/
structure SceneLine where
  scene_number : Nat
  scene_type : String
  script_text : String
  narration_url : Option String
  narration_duration : Option Nat
  phonemes : Option String
deriving DecidableEq

/-- The story-context fields holding generated content, plus the recorded
signature (src/unnamed/part_005).  `storySignature = none` models the unset
empty string, which is falsy in the source's `if (story.storySignature ...)`
guard. -/
structure StoryState where
  storyTitle : String
  scenes : List SceneLine
  imagePrompts : List String
  videoPrompts : List String
  visualBlueprint : Option String
  sceneImages : List String
  videos : List String
  sideCharacterImages : List String
  storySignature : Option SignatureInputs
  finalVideoUrl : String
deriving DecidableEq

/-- Embeds `clearGeneratedContent` (src/unnamed/part_005:170-181): reset every
generated collection, the signature and the final video in one update. -/
def clearGeneratedContent (s : StoryState) : StoryState :=
  { s with
    storyTitle := ""
    scenes := []
    imagePrompts := []
    videoPrompts := []
    visualBlueprint := none
    sceneImages := []
    videos := []
    sideCharacterImages := []
    storySignature := none
    finalVideoUrl := "" }

/-- The signature-watching effect (src/unnamed/part_009:755-801): compute the
signature of the current inputs; if a signature is recorded and differs, clear
all generated content and record the new signature; if none is recorded, only
record it; if they are equal, do nothing. -/
def signatureEffect (s : StoryState) (inputs : SignatureInputs) : StoryState :=
  match s.storySignature with
  | some recorded =>
    if recorded ≠ inputs then
      { clearGeneratedContent s with storySignature := some inputs }
    else s
  | none => { s with storySignature := some inputs }

/-- The scene-count watcher in the story provider
(src/unnamed/part_005:333-342): when the previous count ref is truthy
(non-zero) and differs from the new count, clear all generated content. -/
def sceneCountWatcher (s : StoryState) (prevSceneCount newSceneCount : Nat) :
    StoryState :=
  if prevSceneCount ≠ 0 ∧ prevSceneCount ≠ newSceneCount then
    clearGeneratedContent s
  else s

/-- The array adjustment `generateScript` performs after a script for `n`
scenes arrives (src/unnamed/part_009:911-924): each of `videos` and
`sceneImages` is rebuilt to length `n` (keeping held values at surviving
indices) when its length differs. -/
def adjustAfterScript (s : StoryState) (n : Nat) : StoryState :=
  { s with
    videos := if s.videos.length ≠ n then alignToLength n s.videos else s.videos
    sceneImages :=
      if s.sceneImages.length ≠ n then alignToLength n s.sceneImages
      else s.sceneImages }

/-- The context writes of `retryImage`/`generateSingleImage`
(src/unnamed/part_009:1311-1328 and 1379-1396): functional updates writing the
new image URL at the regenerated scene's index and the empty string (stale)
into the videos array at that same index. -/
def applySingleImageRegen (sceneImages videos : List String) (idx : Nat)
    (url : String) : List String × List String :=
  (jsArrayWrite sceneImages idx url, jsArrayWrite videos idx "")

/-- Per-scene generation status of the scene page's local scene records. -/
inductive GenStatus where
  | idle
  | generating
  | ready
  | error
deriving DecidableEq

/-- The fields of the scene page's local `Scene` records that the final-video
gate reads (src/unnamed/part_009). -/
structure SceneUI where
  videoUrl : Option String
  videoStatus : GenStatus
  narrationUrl : Option String
  narrationStatus : GenStatus
deriving DecidableEq

/-- Embeds `scenes.length > 0 && scenes.every(s => s.videoUrl !== null && s.videoStatus === 'ready')`
(src/unnamed/part_009:1937). -/
def allVideosReady (scenes : List SceneUI) : Bool :=
  decide (0 < scenes.length) &&
    scenes.all (fun sc => sc.videoUrl.isSome && decide (sc.videoStatus = GenStatus.ready))

/-- Embeds `scenes.length > 0 && scenes.every(s => s.narrationUrl !== null && s.narrationStatus === 'ready')`
(src/unnamed/part_009:1938). -/
def allNarrationsReady (scenes : List SceneUI) : Bool :=
  decide (0 < scenes.length) &&
    scenes.all (fun sc =>
      sc.narrationUrl.isSome && decide (sc.narrationStatus = GenStatus.ready))

/-- Embeds `canProceedToFinal` (src/unnamed/part_009:1939): the proceed-to-final
button is rendered with `disabled={!canProceedToFinal}`
(src/unnamed/part_009:2509), so this boolean is exactly "the final-video step
is offered". -/
def canProceedToFinal (scenes : List SceneUI) (videos : List String) : Bool :=
  allVideosReady scenes && allNarrationsReady scenes &&
    decide (0 < videos.length) && videos.all (fun v => v ≠ "")

/-- One entry of the payload `handleGenerateFinalVideo` sends to the backend
(src/story-maker/app/create/final/page.tsx:56-69).  `video_url` is
`story.videos[idx]`, which in JS is `undefined` when the index is out of
range — hence an `Option` with no defaulting; `narration_url` is
`scene.narration_url || ''`; `duration` is `scene.narration_duration || 5`
(the JS `||` also replaces a held 0). -/
structure FinalScenePayload where
  video_url : Option String
  narration_url : String
  subtitle_text : String
  phonemes : Option String
  duration : Nat
deriving DecidableEq

/-- Embeds `scene.narration_duration || 5`. -/
def durationOrDefault (d : Option Nat) : Nat :=
  match d with
  | some n => if n = 0 then 5 else n
  | none => 5

/-- Embeds `story.scenes.map((scene, idx) => ({video_url: story.videos[idx], ...}))`
from `handleGenerateFinalVideo`. -/
def buildFinalScenes (scenes : List SceneLine) (videos : List String) :
    List FinalScenePayload :=
  scenes.enum.map (fun iv =>
    { video_url := videos[iv.1]?
      narration_url := iv.2.narration_url.getD ""
      subtitle_text := iv.2.script_text
      phonemes := iv.2.phonemes
      duration := durationOrDefault iv.2.narration_duration })

/-- The condition of the final page's auto-generate effect
(src/story-maker/app/create/final/page.tsx:40-46):
`!finalVideoUrl && !story.finalVideoUrl && story.videos.length > 0 && !hasGeneratedRef.current`.
The two URL values are strings whose falsy cases (null rendered as `""`, and
`""` itself) are modelled by the empty string. -/
def shouldAutoGenerateFinal (localUrl ctxUrl : String) (videos : List String)
    (hasGenerated : Bool) : Bool :=
  decide (localUrl = "") && decide (ctxUrl = "") &&
    decide (0 < videos.length) && !hasGenerated

/-- One run of the final page's auto-generate effect: when the condition
holds, the ref is set and the payload built from the current scenes and
videos is submitted; otherwise nothing is submitted and the ref keeps its
value.  Returns (ref afterwards, submitted payload if any). -/
def finalAutoGenEffect (localUrl ctxUrl : String) (videos : List String)
    (scenes : List SceneLine) (hasGenerated : Bool) :
    Bool × Option (List FinalScenePayload) :=
  if shouldAutoGenerateFinal localUrl ctxUrl videos hasGenerated then
    (true, some (buildFinalScenes scenes videos))
  else (hasGenerated, none)

end AniCreator

namespace AniCreator

/-- C1: the poller behaves as the specified state machine.  For any head poll
response and any continuation: on `STARTED`/`PROGRESS` the progress callback
fires exactly when the `progress` field is present (with
`{current, total, status, partial_results}`) and the next tick is scheduled;
on `PENDING` or an unrecognized state the next tick is scheduled with no
callback; on the first `SUCCESS` the run resolves with the record's `result`
and issues no further polls (`polls = 1`, the continuation is never
consumed); on the first `FAILURE` it rejects with the record's `error` and
issues no further polls. -/
theorem pollJobUntilComplete_state_machine (r : JobRecord)
    (rest : List (Except String JobRecord)) :
    ((r.state = JobState.STARTED ∨ r.state = JobState.PROGRESS) →
      pollJobUntilComplete (Except.ok r :: rest) =
        ⟨progressEvent r ++ (pollJobUntilComplete rest).events,
         (pollJobUntilComplete rest).outcome,
         (pollJobUntilComplete rest).polls + 1⟩) ∧
    (r.progress = none → progressEvent r = []) ∧
    (∀ p, r.progress = some p →
      progressEvent r = [⟨p.current, p.total, r.status, r.partial_results⟩]) ∧
    ((r.state = JobState.PENDING ∨ ∃ s, r.state = JobState.OTHER s) →
      pollJobUntilComplete (Except.ok r :: rest) =
        ⟨(pollJobUntilComplete rest).events,
         (pollJobUntilComplete rest).outcome,
         (pollJobUntilComplete rest).polls + 1⟩) ∧
    (r.state = JobState.SUCCESS →
      pollJobUntilComplete (Except.ok r :: rest) =
        ⟨[], PollOutcome.resolved r.result, 1⟩) ∧
    (∀ e, r.state = JobState.FAILURE → r.error = some e → e ≠ "" →
      pollJobUntilComplete (Except.ok r :: rest) =
        ⟨[], PollOutcome.rejected e, 1⟩) := by
  refine ⟨?_, ?_, ?_, ?_, ?_, ?_⟩
  · rintro (h | h) <;> simp [pollJobUntilComplete, h]
  · intro h; simp [progressEvent, h]
  · intro p h; simp [progressEvent, h]
  · rintro (h | ⟨s, h⟩) <;> simp [pollJobUntilComplete, h]
  · intro h; simp [pollJobUntilComplete, h]
  · intro e hst herr hne
    simp [pollJobUntilComplete, hst, failureMessage, herr, hne]

/-- Witness for C1: a concrete `SUCCESS` record resolves with its `result`
after exactly one poll, whatever follows in the response stream. -/
theorem pollJobUntilComplete_state_machine_witness :
    pollJobUntilComplete
      [Except.ok ⟨JobState.SUCCESS, "done", none, none, some "movie.mp4", none⟩,
       Except.ok ⟨JobState.FAILURE, "x", none, none, none, some "boom"⟩] =
      ⟨[], PollOutcome.resolved (some "movie.mp4"), 1⟩ :=
  (pollJobUntilComplete_state_machine
    ⟨JobState.SUCCESS, "done", none, none, some "movie.mp4", none⟩
    [Except.ok ⟨JobState.FAILURE, "x", none, none, none, some "boom"⟩]).2.2.2.2.1 rfl

/-- C9: a transport failure during a status poll (the fetch throwing) is
propagated to the caller as a rejection carrying that error, and the poller
issues no further status requests: after any prefix of non-terminal
responses, the run's request count is exactly the prefix length plus the one
failing request, and the continuation after the failure is never consumed. -/
theorem pollJobUntilComplete_transport_failure
    (pre : List (Except String JobRecord)) (e : String)
    (rest : List (Except String JobRecord))
    (h : pre.all pollContinues = true) :
    (pollJobUntilComplete (pre ++ Except.error e :: rest)).outcome =
      PollOutcome.rejected e ∧
    (pollJobUntilComplete (pre ++ Except.error e :: rest)).polls =
      pre.length + 1 := by
  induction pre with
  | nil => simp [pollJobUntilComplete]
  | cons x xs ih =>
    rw [List.all_cons, Bool.and_eq_true] at h
    obtain ⟨hx, hxs⟩ := h
    obtain ⟨ih1, ih2⟩ := ih hxs
    cases x with
    | error e' => simp [pollContinues] at hx
    | ok r =>
      cases hr : r.state <;>
        simp [pollContinues, hr] at hx <;>
        simp [pollJobUntilComplete, hr, List.cons_append, ih1, ih2]

/-- Witness for C9: one `STARTED` response, then a thrown fetch; the run
rejects with the network error after exactly two requests, ignoring the
pending `SUCCESS` that would have followed. -/
theorem pollJobUntilComplete_transport_failure_witness :
    (pollJobUntilComplete
      [Except.ok ⟨JobState.STARTED, "warming", none, none, none, none⟩,
       Except.error "network down",
       Except.ok ⟨JobState.SUCCESS, "done", none, none, some "u", none⟩]).outcome =
      PollOutcome.rejected "network down" ∧
    (pollJobUntilComplete
      [Except.ok ⟨JobState.STARTED, "warming", none, none, none, none⟩,
       Except.error "network down",
       Except.ok ⟨JobState.SUCCESS, "done", none, none, some "u", none⟩]).polls = 2 :=
  pollJobUntilComplete_transport_failure
    [Except.ok ⟨JobState.STARTED, "warming", none, none, none, none⟩]
    "network down"
    [Except.ok ⟨JobState.SUCCESS, "done", none, none, some "u", none⟩]
    (by decide)

/-- Pointwise reading of a JS array write: under `getD _ ""` (absent cells and
gap cells both read as the empty string), writing `v` at `i` changes index `i`
to `v` and no other index. -/
theorem jsArrayWrite_getD (xs : List String) (i : Nat) (v : String) (j : Nat) :
    (jsArrayWrite xs i v).getD j "" = if j = i then v else xs.getD j "" := by
  simp only [jsArrayWrite, List.getD_eq_getElem?_getD]
  split
  · rename_i h
    rcases eq_or_ne j i with rfl | hj
    · simp [List.getElem?_set_self, h]
    · simp [List.getElem?_set_ne (Ne.symm hj), hj]
  · rename_i h
    push_neg at h
    rw [List.append_assoc]
    rcases lt_or_ge j xs.length with hjx | hjx
    · rw [List.getElem?_append_left hjx, if_neg (by omega)]
    · rw [List.getElem?_append_right hjx]
      rcases lt_trichotomy j i with hji | rfl | hji
      · rw [List.getElem?_append_left (by simp; omega)]
        rw [List.getElem?_replicate_of_lt (by omega)]
        rw [if_neg (by omega), List.getElem?_eq_none hjx]
        rfl
      · rw [List.getElem?_append_right (by simp), if_pos rfl]
        simp
      · rw [List.getElem?_eq_none (by simp; omega), if_neg (by omega),
          List.getElem?_eq_none hjx]

/-- Indices below the forEach counter are never touched by the rest of the
merge loop. -/
theorem mergeLoop_getD_lt (p : List String) (acc : List String) (k j : Nat)
    (h : j < k) : (mergeLoop acc k p).getD j "" = acc.getD j "" := by
  induction p generalizing acc k with
  | nil => rfl
  | cons v vs ih =>
    rw [mergeLoop, ih _ _ (Nat.lt_succ_of_lt h)]
    split
    · rfl
    · rw [jsArrayWrite_getD, if_neg (Nat.ne_of_lt h)]

/-- Pointwise reading of the merge loop from counter `k`: index `k + d` holds
the payload entry `d` when that entry is non-empty, and the held value
otherwise. -/
theorem mergeLoop_getD_ge (p : List String) (acc : List String) (k d : Nat) :
    (mergeLoop acc k p).getD (k + d) "" =
      if p.getD d "" = "" then acc.getD (k + d) "" else p.getD d "" := by
  induction p generalizing acc k d with
  | nil => simp [mergeLoop, List.getD]
  | cons v vs ih =>
    cases d with
    | zero =>
      rw [mergeLoop, mergeLoop_getD_lt vs _ (k + 1) (k + 0) (by omega)]
      have h0 : (v :: vs).getD 0 "" = v := rfl
      rw [h0]
      by_cases hv : v = ""
      · rw [if_pos hv, if_pos hv]
      · rw [if_neg hv, if_neg hv, jsArrayWrite_getD,
          if_pos (by omega : k + 0 = k)]
    | succ e =>
      have hs : (v :: vs).getD (e + 1) "" = vs.getD e "" := rfl
      rw [mergeLoop, show k + (e + 1) = (k + 1) + e by omega, ih, hs]
      by_cases hvs : vs.getD e "" = ""
      · rw [if_pos hvs, if_pos hvs]
        by_cases hv : v = ""
        · rw [if_pos hv]
        · rw [if_neg hv, jsArrayWrite_getD,
            if_neg (by omega : ¬(k + 1) + e = k)]
      · rw [if_neg hvs, if_neg hvs]

/-- Pointwise reading of the partial-results merge: index `j` takes the
payload value exactly when the payload holds a non-empty entry there. -/
theorem mergePartialImages_getD (s p : List String) (j : Nat) :
    (mergePartialImages s p).getD j "" =
      if p.getD j "" = "" then s.getD j "" else p.getD j "" := by
  have h := mergeLoop_getD_ge p s 0 j
  simpa [mergePartialImages] using h

/-- A payload with only empty entries writes nothing. -/
theorem mergeLoop_replicate_empty (n : Nat) (acc : List String) (k : Nat) :
    mergeLoop acc k (List.replicate n "") = acc := by
  induction n generalizing k with
  | zero => rfl
  | succ m ih => rw [List.replicate_succ, mergeLoop, if_pos rfl]; exact ih _

/-- C2 (code evaluated at the failing input): `pollJobUntilComplete` offers no
cancellation mechanism — the source keeps no cancelled flag, stores no
`setTimeout` id and accepts no abort signal — so its embedding takes no
abandonment input and the callback trace is a function of the polled statuses
alone.  On `abandonedPollTrace` the second progress callback necessarily
fires, even when the caller abandoned the poller after the first one. -/
theorem pollJobUntilComplete_no_cancellation :
    (pollJobUntilComplete abandonedPollTrace).events =
      [⟨1, 2, "1/2 scenes", some ["a.png"]⟩,
       ⟨2, 2, "2/2 scenes", some ["a.png", "b.png"]⟩] := by
  decide

/-- C5: the partial-results merge updates only the indices whose payload
entries are present and non-empty; indices absent from the payload or holding
an empty entry keep their previous value; and merging an all-empty/no-op
payload after a merge changes nothing, so the merge is idempotent with
respect to absent data. -/
theorem mergePartialImages_nondestructive (s p : List String) :
    (∀ j, p.getD j "" = "" →
      (mergePartialImages s p).getD j "" = s.getD j "") ∧
    (∀ j, p.getD j "" ≠ "" →
      (mergePartialImages s p).getD j "" = p.getD j "") ∧
    (∀ n, mergePartialImages (mergePartialImages s p) (List.replicate n "") =
      mergePartialImages s p) := by
  refine ⟨?_, ?_, ?_⟩
  · intro j h; rw [mergePartialImages_getD, if_pos h]
  · intro j h; rw [mergePartialImages_getD, if_neg h]
  · intro n; exact mergeLoop_replicate_empty n _ 0

/-- Witness for C5 on a concrete document and payload: entry 0 (payload
empty) keeps its held value, entry 1 takes the payload value, and a no-op
merge afterwards is the identity. -/
theorem mergePartialImages_nondestructive_witness :
    (mergePartialImages ["held.png", ""] ["", "new.png"]).getD 0 "" =
      "held.png" ∧
    (mergePartialImages ["held.png", ""] ["", "new.png"]).getD 1 "" =
      "new.png" ∧
    mergePartialImages (mergePartialImages ["held.png", ""] ["", "new.png"])
      (List.replicate 2 "") =
      mergePartialImages ["held.png", ""] ["", "new.png"] :=
  ⟨(mergePartialImages_nondestructive ["held.png", ""] ["", "new.png"]).1 0 rfl,
   (mergePartialImages_nondestructive ["held.png", ""] ["", "new.png"]).2.1 1
     (by decide),
   (mergePartialImages_nondestructive ["held.png", ""] ["", "new.png"]).2.2 2⟩

/-- Pointwise reading of `alignToLength`: within range, the held value; no
cell exists past `n`. -/
theorem alignToLength_getD (n : Nat) (xs : List String) (j : Nat) :
    (alignToLength n xs).getD j "" = if j < n then xs.getD j "" else "" := by
  simp only [alignToLength, List.getD_eq_getElem?_getD, List.getElem?_map]
  rcases lt_or_ge j n with h | h
  · rw [List.getElem?_range h, if_pos h]
    rfl
  · rw [List.getElem?_eq_none (by simpa using h), if_neg (by omega)]
    rfl

/-- `alignToLength` always yields exactly `n` cells. -/
theorem alignToLength_length (n : Nat) (xs : List String) :
    (alignToLength n xs).length = n := by
  simp [alignToLength]

/-- C6: the mount-time reconciliation leaves both sibling arrays at exactly
the scenes length, keeps the held value at every index existing in both the
old and the new array, and fills indices new to the array with the empty
string. -/
theorem reconcileOnMount_alignment (n : Nat) (videos images : List String) :
    (reconcileOnMount n videos images).1.length = n ∧
    (reconcileOnMount n videos images).2.length = n ∧
    (∀ j, j < n → j < videos.length →
      (reconcileOnMount n videos images).1.getD j "" = videos.getD j "") ∧
    (∀ j, j < n → j < images.length →
      (reconcileOnMount n videos images).2.getD j "" = images.getD j "") ∧
    (∀ j, videos.length ≤ j → j < n →
      (reconcileOnMount n videos images).1.getD j "" = "") ∧
    (∀ j, images.length ≤ j → j < n →
      (reconcileOnMount n videos images).2.getD j "" = "") := by
  simp only [reconcileOnMount]
  refine ⟨?_, ?_, ?_, ?_, ?_, ?_⟩
  · split
    · exact alignToLength_length n videos
    · omega
  · split
    · exact alignToLength_length n images
    · omega
  · intro j hjn hjv
    split
    · rw [alignToLength_getD, if_pos hjn]
    · rfl
  · intro j hjn hji
    split
    · rw [alignToLength_getD, if_pos hjn]
    · rfl
  · intro j hjv hjn
    split
    · rw [alignToLength_getD, if_pos hjn, List.getD_eq_getElem?_getD,
        List.getElem?_eq_none hjv]
      rfl
    · omega
  · intro j hji hjn
    split
    · rw [alignToLength_getD, if_pos hjn, List.getD_eq_getElem?_getD,
        List.getElem?_eq_none hji]
      rfl
    · omega

/-- Witness for C6 at a concrete resumed state: 3 scenes, a 1-long videos
array and an empty images array are padded to length 3, index 0 of the videos
array keeps its value and the new indices read empty. -/
theorem reconcileOnMount_alignment_witness :
    (reconcileOnMount 3 ["v0.mp4"] []).1.length = 3 ∧
    (reconcileOnMount 3 ["v0.mp4"] []).2.length = 3 ∧
    (reconcileOnMount 3 ["v0.mp4"] []).1.getD 0 "" = "v0.mp4" ∧
    (reconcileOnMount 3 ["v0.mp4"] []).1.getD 2 "" = "" ∧
    (reconcileOnMount 3 ["v0.mp4"] []).2.getD 1 "" = "" :=
  ⟨(reconcileOnMount_alignment 3 ["v0.mp4"] []).1,
   (reconcileOnMount_alignment 3 ["v0.mp4"] []).2.1,
   (reconcileOnMount_alignment 3 ["v0.mp4"] []).2.2.1 0 (by decide) (by decide),
   (reconcileOnMount_alignment 3 ["v0.mp4"] []).2.2.2.2.1 2 (by decide)
     (by decide),
   (reconcileOnMount_alignment 3 ["v0.mp4"] []).2.2.2.2.2 1 (by decide)
     (by decide)⟩

/-- If the gate boolean is true, every scene passes both per-scene checks. -/
theorem canProceedToFinal_sound (scenes : List SceneUI) (videos : List String)
    (h : canProceedToFinal scenes videos = true) :
    ∀ sc ∈ scenes, sc.videoUrl.isSome = true ∧
      sc.videoStatus = GenStatus.ready ∧ sc.narrationUrl.isSome = true ∧
      sc.narrationStatus = GenStatus.ready := by
  intro sc hsc
  simp only [canProceedToFinal, allVideosReady, allNarrationsReady,
    Bool.and_eq_true, List.all_eq_true, decide_eq_true_eq] at h
  obtain ⟨⟨⟨⟨_, hv⟩, _, hn⟩, _⟩, _⟩ := h
  obtain ⟨hv1, hv2⟩ := hv sc hsc
  obtain ⟨hn1, hn2⟩ := hn sc hsc
  exact ⟨hv1, by simpa using hv2, hn1, by simpa using hn2⟩

/-- C3: the proceed-to-final action (rendered disabled unless
`canProceedToFinal`) is enabled only when every scene has a ready video and a
ready narration; whenever some scene lacks a video URL or a narration URL the
gate is false and the final-video step is not offered. -/
theorem canProceedToFinal_gate (scenes : List SceneUI) (videos : List String) :
    (canProceedToFinal scenes videos = true →
      ∀ sc ∈ scenes, sc.videoUrl.isSome = true ∧
        sc.videoStatus = GenStatus.ready ∧ sc.narrationUrl.isSome = true ∧
        sc.narrationStatus = GenStatus.ready) ∧
    (∀ sc ∈ scenes, (sc.videoUrl = none ∨ sc.narrationUrl = none) →
      canProceedToFinal scenes videos = false) := by
  refine ⟨canProceedToFinal_sound scenes videos, ?_⟩
  intro sc hsc hlack
  cases hcp : canProceedToFinal scenes videos with
  | false => rfl
  | true =>
    exfalso
    obtain ⟨h1, _, h3, _⟩ := canProceedToFinal_sound scenes videos hcp sc hsc
    rcases hlack with h | h <;> simp [h] at h1 h3

/-- The 5-scene state of the claim's example: scene 3 (index 2) has a ready
narration but no video. -/
def c3Scenes : List SceneUI :=
  [⟨some "v1.mp4", GenStatus.ready, some "n1.mp3", GenStatus.ready⟩,
   ⟨some "v2.mp4", GenStatus.ready, some "n2.mp3", GenStatus.ready⟩,
   ⟨none, GenStatus.idle, some "n3.mp3", GenStatus.ready⟩,
   ⟨some "v4.mp4", GenStatus.ready, some "n4.mp3", GenStatus.ready⟩,
   ⟨some "v5.mp4", GenStatus.ready, some "n5.mp3", GenStatus.ready⟩]

/-- Witness for C3: with 5 scenes and scene 3 missing its video, the
proceed-to-final gate is disabled. -/
theorem canProceedToFinal_gate_witness :
    canProceedToFinal c3Scenes
      ["v1.mp4", "v2.mp4", "", "v4.mp4", "v5.mp4"] = false :=
  (canProceedToFinal_gate c3Scenes
      ["v1.mp4", "v2.mp4", "", "v4.mp4", "v5.mp4"]).2
    ⟨none, GenStatus.idle, some "n3.mp3", GenStatus.ready⟩
    (by decide) (Or.inl rfl)

/-- C4: the signature effect fires exactly once per actual input change.
With no recorded signature it only records the current one (no clearing);
with an equal recorded signature it does nothing; with a different recorded
signature it clears every downstream collection in the one
`clearGeneratedContent` update and records the new signature; and it always
leaves the current signature recorded, so running the effect again on the
same inputs is the identity. -/
theorem signatureEffect_exactly_once (s : StoryState)
    (inputs : SignatureInputs) :
    (s.storySignature = none →
      signatureEffect s inputs = { s with storySignature := some inputs }) ∧
    (s.storySignature = some inputs → signatureEffect s inputs = s) ∧
    (∀ rec, s.storySignature = some rec → rec ≠ inputs →
      signatureEffect s inputs =
        { clearGeneratedContent s with storySignature := some inputs }) ∧
    ((signatureEffect s inputs).storySignature = some inputs) ∧
    (signatureEffect (signatureEffect s inputs) inputs =
      signatureEffect s inputs) := by
  have hsig : (signatureEffect s inputs).storySignature = some inputs := by
    cases h : s.storySignature with
    | none => simp [signatureEffect, h]
    | some rec =>
      by_cases hne : rec = inputs <;> simp [signatureEffect, h, hne]
  have hfix : ∀ t : StoryState, t.storySignature = some inputs →
      signatureEffect t inputs = t := by
    intro t h
    simp [signatureEffect, h]
  refine ⟨?_, hfix s, ?_, hsig, hfix _ hsig⟩
  · intro h; simp [signatureEffect, h]
  · intro rec h hne; simp [signatureEffect, h, hne]

/-- A concrete story state with recorded signature and generated content, for
the C4 witness. -/
def c4State : StoryState :=
  { storyTitle := "The Brave Bee"
    scenes := [⟨1, "character", "Bee flies", some "n1.mp3", some 4, none⟩]
    imagePrompts := ["a bee in a meadow"]
    videoPrompts := ["bee flying"]
    visualBlueprint := some "meadow"
    sceneImages := ["s1.png"]
    videos := ["v1.mp4"]
    sideCharacterImages := ["side1.png"]
    storySignature :=
      some ⟨"Bee", "animal", "brave", "", "a bee", "bee.png", "cartoon",
        ["friendship"], "", 5⟩
    finalVideoUrl := "final.mp4" }

/-- Witness for C4: changing only the scene count (5 to 6) in the inputs
clears all generated content and records the new signature, while re-running
the effect on the unchanged inputs is the identity. -/
theorem signatureEffect_exactly_once_witness :
    signatureEffect c4State
      ⟨"Bee", "animal", "brave", "", "a bee", "bee.png", "cartoon",
        ["friendship"], "", 6⟩ =
      { clearGeneratedContent c4State with
        storySignature :=
          some ⟨"Bee", "animal", "brave", "", "a bee", "bee.png", "cartoon",
            ["friendship"], "", 6⟩ } ∧
    signatureEffect c4State
      ⟨"Bee", "animal", "brave", "", "a bee", "bee.png", "cartoon",
        ["friendship"], "", 5⟩ = c4State :=
  ⟨(signatureEffect_exactly_once c4State
      ⟨"Bee", "animal", "brave", "", "a bee", "bee.png", "cartoon",
        ["friendship"], "", 6⟩).2.2.1
      ⟨"Bee", "animal", "brave", "", "a bee", "bee.png", "cartoon",
        ["friendship"], "", 5⟩ rfl (by decide),
   (signatureEffect_exactly_once c4State
      ⟨"Bee", "animal", "brave", "", "a bee", "bee.png", "cartoon",
        ["friendship"], "", 5⟩).2.1 rfl⟩

/-- A story state holding 3 finished videos among 5 slots, before a
scene-count change (for C7). -/
def c7State : StoryState :=
  { storyTitle := "T"
    scenes := []
    imagePrompts := []
    videoPrompts := []
    visualBlueprint := none
    sceneImages := []
    videos := ["v0.mp4", "v1.mp4", "v2.mp4", "", ""]
    sideCharacterImages := []
    storySignature := none
    finalVideoUrl := "" }

/-- C7 fails on the code: changing the scene count from 5 to 6 runs the
scene-count watcher, which clears all generated content (including the three
finished videos) before the script stage's array adjustment runs; the
resulting videos array is six empty entries, so index 0 does not keep
`"v0.mp4"` as the claim states. -/
theorem sceneCountChange_counterexample :
    c7State.videos.getD 0 "" = "v0.mp4" ∧
    (adjustAfterScript (sceneCountWatcher c7State 5 6) 6).videos =
      List.replicate 6 "" ∧
    (adjustAfterScript (sceneCountWatcher c7State 5 6) 6).videos.getD 0 "" ≠
      "v0.mp4" := by
  decide

/-- An empty held array aligned to `n` cells is `n` empty strings. -/
theorem alignToLength_nil (n : Nat) :
    alignToLength n [] = List.replicate n "" := by
  have h : (fun idx => ([] : List String).getD idx "") = fun _ : Nat => "" := by
    funext idx
    cases idx <;> rfl
  simp [alignToLength, h]

/-- C7 amended: a scene-count change (from a recorded non-zero previous value
to a different one) clears all generated content, so after the next script
generation for the new count `n` the videos array is `n` empty entries —
previously finished videos are not preserved. -/
theorem sceneCountChange_clears (s : StoryState) (prev n : Nat)
    (h0 : prev ≠ 0) (hne : prev ≠ n) :
    (adjustAfterScript (sceneCountWatcher s prev n) n).videos =
      List.replicate n "" := by
  rw [sceneCountWatcher, if_pos ⟨h0, hne⟩]
  by_cases hn : n = 0
  · subst hn; simp [adjustAfterScript, clearGeneratedContent]
  · have h0n : (0 : Nat) ≠ n := fun h => hn h.symm
    simp [adjustAfterScript, clearGeneratedContent, h0n, alignToLength_nil]

/-- Witness for C7's amended statement at the claim's numbers: a 5-to-6
scene-count change on a state with three finished videos ends with six empty
video slots. -/
theorem sceneCountChange_clears_witness :
    (adjustAfterScript (sceneCountWatcher c7State 5 6) 6).videos =
      List.replicate 6 "" :=
  sceneCountChange_clears c7State 5 6 (by decide) (by decide)

/-- C8: regenerating one scene's image writes the new image URL at exactly
that scene's index, clears exactly that scene's video entry, and leaves every
other index of both arrays unchanged. -/
theorem applySingleImageRegen_frame (images videos : List String) (idx : Nat)
    (url : String) :
    ((applySingleImageRegen images videos idx url).1.getD idx "" = url) ∧
    ((applySingleImageRegen images videos idx url).2.getD idx "" = "") ∧
    (∀ j, j ≠ idx →
      (applySingleImageRegen images videos idx url).1.getD j "" =
        images.getD j "") ∧
    (∀ j, j ≠ idx →
      (applySingleImageRegen images videos idx url).2.getD j "" =
        videos.getD j "") := by
  refine ⟨?_, ?_, ?_, ?_⟩
  · rw [applySingleImageRegen]
    rw [jsArrayWrite_getD, if_pos rfl]
  · rw [applySingleImageRegen]
    rw [jsArrayWrite_getD, if_pos rfl]
  · intro j hj
    rw [applySingleImageRegen]
    rw [jsArrayWrite_getD, if_neg hj]
  · intro j hj
    rw [applySingleImageRegen]
    rw [jsArrayWrite_getD, if_neg hj]

/-- Witness for C8 at index 1 of two 3-long arrays: the regenerated scene's
image is replaced and its video cleared, while index 0 and 2 of both arrays
keep their values. -/
theorem applySingleImageRegen_frame_witness :
    (applySingleImageRegen ["i0", "i1", "i2"] ["w0", "w1", "w2"] 1
        "new.png").1.getD 1 "" = "new.png" ∧
    (applySingleImageRegen ["i0", "i1", "i2"] ["w0", "w1", "w2"] 1
        "new.png").2.getD 1 "" = "" ∧
    (applySingleImageRegen ["i0", "i1", "i2"] ["w0", "w1", "w2"] 1
        "new.png").1.getD 0 "" = "i0" ∧
    (applySingleImageRegen ["i0", "i1", "i2"] ["w0", "w1", "w2"] 1
        "new.png").2.getD 2 "" = "w2" :=
  ⟨(applySingleImageRegen_frame ["i0", "i1", "i2"] ["w0", "w1", "w2"] 1
      "new.png").1,
   (applySingleImageRegen_frame ["i0", "i1", "i2"] ["w0", "w1", "w2"] 1
      "new.png").2.1,
   (applySingleImageRegen_frame ["i0", "i1", "i2"] ["w0", "w1", "w2"] 1
      "new.png").2.2.1 0 (by decide),
   (applySingleImageRegen_frame ["i0", "i1", "i2"] ["w0", "w1", "w2"] 1
      "new.png").2.2.2 2 (by decide)⟩

/-- C10: the final page's auto-generate effect submits exactly when no final
video URL is recorded (locally or in context), the videos array is non-empty
and the ref is unset; a submission sets the ref so a second run submits
nothing; each payload entry is built as `video_url = videos[idx]` (undefined
out of range) and `narration_url = narration_url || ''`; and the site checks
no per-scene readiness: a state with an empty video entry and no narration
still submits, with empty per-scene inputs. -/
theorem finalAutoGen_behavior (localUrl ctxUrl : String)
    (videos : List String) (scenes : List SceneLine) (hasGenerated : Bool) :
    (shouldAutoGenerateFinal localUrl ctxUrl videos hasGenerated = true ↔
      localUrl = "" ∧ ctxUrl = "" ∧ 0 < videos.length ∧
        hasGenerated = false) ∧
    ((finalAutoGenEffect localUrl ctxUrl videos scenes hasGenerated).2 =
      if shouldAutoGenerateFinal localUrl ctxUrl videos hasGenerated then
        some (buildFinalScenes scenes videos)
      else none) ∧
    ((finalAutoGenEffect localUrl ctxUrl videos scenes
        hasGenerated).2.isSome = true →
      (finalAutoGenEffect localUrl ctxUrl videos scenes
        (finalAutoGenEffect localUrl ctxUrl videos scenes
          hasGenerated).1).2 = none) ∧
    (∀ (i : Nat) (sc : SceneLine), scenes[i]? = some sc →
      (buildFinalScenes scenes videos)[i]? =
        some ⟨videos[i]?, sc.narration_url.getD "", sc.script_text,
          sc.phonemes, durationOrDefault sc.narration_duration⟩) ∧
    (shouldAutoGenerateFinal "" "" [""] false = true ∧
      buildFinalScenes [⟨1, "character", "hi", none, none, none⟩] [""] =
        [⟨some "", "", "hi", none, 5⟩]) := by
  refine ⟨?_, ?_, ?_, ?_, by decide⟩
  · cases hasGenerated <;> simp [shouldAutoGenerateFinal, and_assoc]
  · by_cases h : shouldAutoGenerateFinal localUrl ctxUrl videos hasGenerated <;>
      simp [finalAutoGenEffect, h]
  · have hstop : shouldAutoGenerateFinal localUrl ctxUrl videos true = false := by
      simp [shouldAutoGenerateFinal]
    by_cases h : shouldAutoGenerateFinal localUrl ctxUrl videos hasGenerated
    · intro _
      simp [finalAutoGenEffect, h, hstop]
    · intro hsome
      simp [finalAutoGenEffect, h] at hsome
  · intro i sc h
    simp [buildFinalScenes, List.getElem?_map, List.getElem?_enum, h]

/-- Witness for C10's payload shape at a concrete scene list: the single
entry carries the scene's video slot, narration URL and duration. -/
theorem finalAutoGen_behavior_witness :
    (buildFinalScenes [⟨1, "character", "hi", some "n.mp3", some 3, none⟩]
        ["v.mp4"])[0]? =
      some ⟨some "v.mp4", "n.mp3", "hi", none, 3⟩ :=
  (finalAutoGen_behavior "" "" ["v.mp4"]
      [⟨1, "character", "hi", some "n.mp3", some 3, none⟩] false).2.2.2.1 0
    ⟨1, "character", "hi", some "n.mp3", some 3, none⟩ rfl

end AniCreator
